import Mathlib

/-!
Verification of the Happy Hours Finder pipeline (happy_hours.py).

The program's core is a two-stage pipeline: venue discovery and heuristic
enrichment (fetch_happy_hour_data_live), deal assembly (data_collector_agent),
a conditional workflow edge (decide_next_step), and a publish stub
(whistle_api_creator_agent).  Floats are modelled with exact rationals; the
geodesic-distance function (geopy) is transcendental and is treated as a
parameter; the network is an oracle mapping each query term to its response.
-/

namespace HappyHours

/-- A geographic coordinate (latitude, longitude). -/
structure Coord where
  lat : ℚ
  lng : ℚ
deriving Repr, DecidableEq

/-- Abstract geodesic-distance function standing for calculate_distance_km
(geopy geodesic().kilometers), arguments (lat1, lng1, lat2, lng2). -/
abbrev Dist := ℚ → ℚ → ℚ → ℚ → ℚ

/-- A place record as returned by the Places API: a JSON dict with optional
fields.  Covers both a basic text-search result and a detail-fetch result.
The geometry field models presence of geometry.location; opening_hours models
opening_hours.weekday_text; each element of reviews is the text field of one
review dict (a missing text is the empty string, as in review.get with
default). -/
structure Place where
  place_id : Option String := none
  geometry : Option Coord := none
  name : Option String := none
  types : List String := []
  formatted_address : Option String := none
  vicinity : Option String := none
  formatted_phone_number : Option String := none
  website : Option String := none
  rating : Option ℚ := none
  opening_hours : List String := []
  reviews : List String := []
deriving Repr, DecidableEq

/-- Outcome of the per-place details request: the HTTP call may raise
(netFail), or return a JSON body with a status and an optional result dict. -/
inductive DetailOutcome where
  | netFail
  | resp (status : String) (result : Option Place)
deriving Repr, DecidableEq

/-- Outcome of one text-search query: the HTTP call or JSON decoding may raise
(netFail), or return a status plus a result list; each result is paired with
the outcome its detail fetch would have if issued. -/
inductive QueryResponse where
  | netFail
  | resp (status : String) (results : List (Place × DetailOutcome))
deriving Repr, DecidableEq

/-- The network oracle: the response each text-search query term receives. -/
abbrev Net := String → QueryResponse

/-- The fixed keyword set scanned for in review text. -/
def happyHourKeywords : List String :=
  ["happy hour", "drink special", "half price", "discount", "specials", "deal"]

/-- needle begins the character list hay. -/
def charsBegin : List Char → List Char → Bool
  | [], _ => true
  | _ :: _, [] => false
  | n :: ns, h :: hs => (n == h) && charsBegin ns hs

/-- needle occurs somewhere in the character list (substring occurrence). -/
def charsOccur (needle : List Char) : List Char → Bool
  | [] => charsBegin needle []
  | h :: hs => charsBegin needle (h :: hs) || charsOccur needle hs

/-- Python substring test: needle in hay. -/
def strContains (hay needle : String) : Bool :=
  charsOccur needle.toList hay.toList

/-- Python str.lower, character by character (the texts involved are ASCII). -/
def strLower (s : String) : String :=
  String.mk (s.toList.map Char.toLower)

/-- One review text matches: its lowercased text contains some keyword. -/
def reviewMatches (text : String) : Bool :=
  happyHourKeywords.any (fun kw => strContains (strLower text) kw)

/-- The review-scan heuristic over the first 5 reviews (the source loop
breaks at the first match; any over the 5-element slice has the same value). -/
def has_happy_hour_mention (reviews : List String) : Bool :=
  (reviews.take 5).any reviewMatches

/-- The category classification from the if/elif chain: offer description and
validity hours inferred from the types list (nm is the place name with
default applied). -/
def offer_for_types (types : List String) (nm : String) : String × ℚ :=
  if types.contains "lodging" || types.contains "hotel" then
    if types.contains "bar" || types.contains "restaurant" then
      ("Hotel Bar/Restaurant Happy Hour: Discounted cocktails, wine, beer, and perhaps small plates.", 2.5)
    else
      ("Hotel Lobby Bar Happy Hour: Special deals on drinks and appetizers for guests and visitors.", 2)
  else if types.contains "bar" || types.contains "pub" || types.contains "night_club" then
    ("Happy Hour: Discounted drinks and possibly appetizers.", 3)
  else if types.contains "restaurant" then
    ("Happy Hour: Special deals on drinks and appetizers.", 2)
  else
    ("Potential happy hour at " ++ nm ++ ".", 2)

/-- Python split on the colon character, as a list of character groups. -/
def splitColon : List Char → List (List Char)
  | [] => [[]]
  | c :: cs =>
    let r := splitColon cs
    if c = ':' then [] :: r else (c :: r.headD []) :: r.tail

/-- Python offer.split with the colon separator. -/
def strSplitColon (s : String) : List String :=
  (splitColon s.toList).map String.mk

/-- Python str.strip: drop whitespace from both ends. -/
def strTrim (s : String) : String :=
  String.mk (((s.toList.dropWhile Char.isWhitespace).reverse.dropWhile
    Char.isWhitespace).reverse)

/-- The fragment kept by the confirmed rewrite: the part after the first
colon, stripped, or a generic fragment when the offer has no colon. -/
def confirmFragment (offer : String) : String :=
  if strContains offer ":" then strTrim ((strSplitColon offer).getD 1 "")
  else "discounted drinks/food"

/-- The confirmed-by-reviews rewrite of an offer description. -/
def confirmOffer (offer : String) : String :=
  "Happy hour confirmed in recent reviews! Deals likely include: " ++
    confirmFragment offer ++ ". Call to confirm current offers."

/-- The enriched-venue dict appended to all_places_found for one place. -/
structure RawDeal where
  name : Option String
  lat : ℚ
  lng : ℚ
  place_id : String
  types : List String
  formatted_address : String
  formatted_phone_number : String
  website : String
  rating : Option ℚ
  opening_hours : List String
  details : String
  validity_hours : ℚ
  distance_km : Option ℚ := none
deriving Repr, DecidableEq

/-- Build the record for one place: place is the basic search result, pid its
id, loc its geometry location, detailed the dict chosen from the details
response (or the basic place on non-OK detail status). -/
def makePlaceRecord (place : Place) (pid : String) (loc : Coord)
    (detailed : Place) : RawDeal :=
  let mention := has_happy_hour_mention detailed.reviews
  let base := offer_for_types detailed.types (detailed.name.getD "Unknown Place")
  { name := detailed.name
    lat := loc.lat
    lng := loc.lng
    place_id := pid
    types := detailed.types
    formatted_address :=
      detailed.formatted_address.getD (place.vicinity.getD "Address not available")
    formatted_phone_number := detailed.formatted_phone_number.getD "N/A"
    website := detailed.website.getD "N/A"
    rating := detailed.rating
    opening_hours := detailed.opening_hours
    details := if mention then confirmOffer base.1 else base.1
    validity_hours := if mention then max base.2 2 else base.2 }

/-- State threaded through discovery: seen place ids and accumulated records. -/
abbrev DiscoveryState := List String × List RawDeal

/-- Process one query's result list in order: skip a result whose place_id is
missing, falsy or already seen, or whose geometry is missing; a netFail of the
detail fetch raises out of the result loop to the per-query handler, so the
rest of this query's results are dropped and the state reached so far is
kept; on a non-OK detail status the basic place record is used as fallback. -/
def process_results : List (Place × DetailOutcome) → DiscoveryState → DiscoveryState
  | [], st => st
  | (place, det) :: rest, (seen, acc) =>
    match place.place_id with
    | none => process_results rest (seen, acc)
    | some pid =>
      if pid = "" ∨ pid ∈ seen then process_results rest (seen, acc)
      else
        match place.geometry with
        | none => process_results rest (seen, acc)
        | some loc =>
          match det with
          | .netFail => (seen, acc)
          | .resp status result =>
            let detailed := if status = "OK" then result.getD {} else place
            process_results rest (pid :: seen, acc ++ [makePlaceRecord place pid loc detailed])

/-- Process one text-search query response under the per-query try/except:
a raised exception keeps the accumulated state and moves to the next query;
only an OK status has its results processed; ZERO_RESULTS and other statuses
are logged and skipped. -/
def process_query (st : DiscoveryState) : QueryResponse → DiscoveryState
  | .netFail => st
  | .resp status results => if status = "OK" then process_results results st else st

/-- The fixed ordered list of search keyword phrases. -/
def search_queries : List String :=
  ["hotel happy hour", "hotel bar", "hotel lounge", "lodging happy hour",
   "bar", "pub", "lounge", "brewery", "restaurant with happy hour",
   "cocktail bar", "wine bar"]

/-- The module-level placeholder sentinel for the API key. -/
def GOOGLE_PLACES_API_KEY_placeholder : String := "YOUR_GOOGLE_PLACES_API_KEY_HERE"

/-- The ValueError message raised when the key is unset or the placeholder. -/
def apiKeyMissingMessage : String :=
  "Google Places API Key is not set or is invalid. Please set GOOGLE_PLACES_API_KEY in your .env file or replace \x27YOUR_GOOGLE_PLACES_API_KEY_HERE\x27 in the script."

/-- fetch_happy_hour_data_live: raises ValueError (modelled as Except.error)
when the key is empty or the placeholder, before consulting the network;
otherwise folds the fixed query list over the network oracle, deduplicating
by place_id, then filters the accumulated records to geodesic distance at
most radius_km, attaching the computed distance. -/
def fetch_happy_hour_data_live (dist : Dist) (apiKey : String) (net : Net)
    (lat lng : ℚ) (radius_km : ℚ) : Except String (List RawDeal) :=
  if apiKey = "" ∨ apiKey = GOOGLE_PLACES_API_KEY_placeholder then
    .error apiKeyMissingMessage
  else
    let all_places_found :=
      (search_queries.foldl (fun st q => process_query st (net q)) ([], [])).2
    .ok (all_places_found.filterMap (fun place =>
      let d := dist lat lng place.lat place.lng
      if d ≤ radius_km then some { place with distance_km := some d } else none))

/-- The canonical formatted deal dict built by data_collector_agent. -/
structure Deal where
  store_name : String
  store_lat : ℚ
  store_lng : ℚ
  offer_details : String
  offer_validity_hours : ℚ
  alert_radius_km : ℚ
  provider : Bool
deriving Repr, DecidableEq

/-- Format one raw record as a deal: name default, validity clamped to at
least 1, alert radius the fixed constant 1, provider the constant True. -/
def formatDeal (deal : RawDeal) : Deal :=
  { store_name := deal.name.getD "Unknown Store"
    store_lat := deal.lat
    store_lng := deal.lng
    offer_details := deal.details
    offer_validity_hours := max 1 deal.validity_hours
    alert_radius_km := 1
    provider := true }

/-- The LangGraph state dict. -/
structure GraphState where
  lat : Option ℚ
  lng : Option ℚ
  happy_hour_deals : List Deal
  api_creation_status : String
  error_message : String
  location_name : String
deriving Repr, DecidableEq

/-- The comparison used by the final sorted(...) call: ascending geodesic
distance of the store address from the origin. -/
def dealLE (dist : Dist) (lat lng : ℚ) (a b : Deal) : Bool :=
  decide (dist lat lng a.store_lat a.store_lng ≤ dist lat lng b.store_lat b.store_lng)

/-- data_collector_agent: requires lat and lng, runs the live fetch at the
fixed 5 km radius, formats and sorts the deals by distance (Python sorted is
a stable merge sort), and writes them to the state; any exception from the
fetch is recorded as an error message. -/
def data_collector_agent (dist : Dist) (apiKey : String) (net : Net)
    (state : GraphState) : GraphState :=
  match state.lat, state.lng with
  | some lat, some lng =>
    match fetch_happy_hour_data_live dist apiKey net lat lng 5 with
    | .error e => { state with error_message := "Error in Data Collector: " ++ e }
    | .ok raw_deals =>
      let formatted_deals := raw_deals.map formatDeal
      let sorted_formatted_deals := formatted_deals.mergeSort (dealLE dist lat lng)
      { state with happy_hour_deals := sorted_formatted_deals }
  | _, _ =>
    { state with error_message := "Latitude and Longitude are required inputs for data collection." }

/-- The mock Whistle publish: success message iff the deal list is nonempty. -/
def create_whistle_api_mock (deals_json : List Deal) : String :=
  if deals_json.isEmpty then "Whistle API creation failed: No deals to publish."
  else "Whistle API successfully created/updated with new happy hour deals."

/-- whistle_api_creator_agent: skips publishing on an empty deal list,
otherwise records the mock publish status. -/
def whistle_api_creator_agent (state : GraphState) : GraphState :=
  if state.happy_hour_deals.isEmpty then
    { state with api_creation_status := "No deals found to publish to Whistle API." }
  else
    { state with api_creation_status := create_whistle_api_mock state.happy_hour_deals }

/-- The three labels returned by the conditional edge. -/
inductive NextStep where
  | continue_to_whistle_api
  | end_no_deals
  | end_with_error
deriving Repr, DecidableEq

/-- decide_next_step: error message recorded wins, then empty deal list,
otherwise continue to the publisher. -/
def decide_next_step (state : GraphState) : NextStep :=
  if state.error_message ≠ "" then .end_with_error
  else if state.happy_hour_deals.isEmpty then .end_no_deals
  else .continue_to_whistle_api

/-- One full run of the compiled workflow: the data collector node, then the
conditional edge, then (only on continue) the whistle node.  Returns the
final state together with the edge decision taken. -/
def run_workflow (dist : Dist) (apiKey : String) (net : Net)
    (initial : GraphState) : GraphState × NextStep :=
  let s1 := data_collector_agent dist apiKey net initial
  match decide_next_step s1 with
  | .continue_to_whistle_api => (whistle_api_creator_agent s1, .continue_to_whistle_api)
  | .end_no_deals => (s1, .end_no_deals)
  | .end_with_error => (s1, .end_with_error)

/-- The initial state built in main before invoking the workflow. -/
def initial_state (lat lng : ℚ) (location_name : String) : GraphState :=
  { lat := some lat, lng := some lng, happy_hour_deals := [],
    api_creation_status := "", error_message := "", location_name := location_name }

end HappyHours

namespace HappyHours

/-! ## Helper lemmas shared across the development -/

/-- The data collector only writes happy_hour_deals or error_message. -/
theorem collector_state_frame (dist : Dist) (apiKey : String) (net : Net)
    (s : GraphState) :
    (data_collector_agent dist apiKey net s).lat = s.lat ∧
    (data_collector_agent dist apiKey net s).lng = s.lng ∧
    (data_collector_agent dist apiKey net s).location_name = s.location_name ∧
    (data_collector_agent dist apiKey net s).api_creation_status = s.api_creation_status := by
  obtain ⟨lat?, lng?, deals, status, err, nm⟩ := s
  unfold data_collector_agent
  cases lat? <;> cases lng? <;> simp
  cases fetch_happy_hour_data_live dist apiKey net _ _ 5 <;> simp

/-- The whistle publisher only writes api_creation_status. -/
theorem whistle_state_frame (s : GraphState) :
    (whistle_api_creator_agent s).lat = s.lat ∧
    (whistle_api_creator_agent s).lng = s.lng ∧
    (whistle_api_creator_agent s).location_name = s.location_name ∧
    (whistle_api_creator_agent s).happy_hour_deals = s.happy_hour_deals ∧
    (whistle_api_creator_agent s).error_message = s.error_message := by
  unfold whistle_api_creator_agent
  split <;> simp

/-- The inferred classification hours are always strictly positive. -/
theorem offer_for_types_hours_pos (types : List String) (nm : String) :
    0 < (offer_for_types types nm).2 := by
  unfold offer_for_types
  split_ifs <;> norm_num

end HappyHours

namespace HappyHours

/-! ## C5: Deal invariants -/

/-- C5: for every raw record, the formatted Deal has offer_validity_hours at
least 1 and alert_radius_km equal to the fixed constant 1; moreover every
deal in the list written by the data collector satisfies both bounds. -/
theorem C5_validity_clamped_radius_fixed (deal : RawDeal) (dist : Dist)
    (apiKey : String) (net : Net) (lat lng : ℚ) (nm : String) :
    (1 ≤ (formatDeal deal).offer_validity_hours ∧
      (formatDeal deal).alert_radius_km = 1) ∧
    ∀ d ∈ (data_collector_agent dist apiKey net
        (initial_state lat lng nm)).happy_hour_deals,
      1 ≤ d.offer_validity_hours ∧ d.alert_radius_km = 1 := by
  constructor
  · exact ⟨le_max_left 1 _, rfl⟩
  · intro d hd
    unfold data_collector_agent initial_state at hd
    simp at hd
    rcases hfetch : fetch_happy_hour_data_live dist apiKey net lat lng 5 with e | raws <;>
      rw [hfetch] at hd <;> simp at hd
    rcases hd with ⟨raw, hraw, hfd⟩
    subst hfd
    exact ⟨le_max_left 1 _, rfl⟩

end HappyHours

namespace HappyHours

/-! ## C10: frame effects of the two pipeline stages -/

/-- C10: the collection stage never modifies lat, lng, location_name or
api_creation_status, and the publish stage never modifies lat, lng,
location_name or happy_hour_deals. -/
theorem C10_stage_frames (dist : Dist) (apiKey : String) (net : Net)
    (s t : GraphState) :
    ((data_collector_agent dist apiKey net s).lat = s.lat ∧
     (data_collector_agent dist apiKey net s).lng = s.lng ∧
     (data_collector_agent dist apiKey net s).location_name = s.location_name ∧
     (data_collector_agent dist apiKey net s).api_creation_status = s.api_creation_status) ∧
    ((whistle_api_creator_agent t).lat = t.lat ∧
     (whistle_api_creator_agent t).lng = t.lng ∧
     (whistle_api_creator_agent t).location_name = t.location_name ∧
     (whistle_api_creator_agent t).happy_hour_deals = t.happy_hour_deals) := by
  refine ⟨collector_state_frame dist apiKey net s, ?_⟩
  have h := whistle_state_frame t
  exact ⟨h.1, h.2.1, h.2.2.1, h.2.2.2.1⟩

end HappyHours

namespace HappyHours

/-! ## Concrete instantiations used by scenario parts and witnesses -/

/-- A degenerate distance model (all distances zero), used to instantiate the
abstract geodesic-distance parameter on concrete scenario inputs. -/
def zeroDist : Dist := fun _ _ _ _ => 0

/-- A network oracle on which every query returns no results. -/
def emptyNet : Net := fun _ => .resp "ZERO_RESULTS" []

end HappyHours

namespace HappyHours

/-! ## C3: the workflow decision after the collection stage -/

/-- C3: after collection, a recorded (nonempty) error message ends the run in
the error terminal state without invoking the publisher; an empty deal list
ends it in the no-deals terminal state with publish status and error message
both empty; otherwise the publisher is invoked on the collector's state,
which carries the full deal list. -/
theorem C3_workflow_decision (dist : Dist) (apiKey : String) (net : Net)
    (init : GraphState) (h0 : init.api_creation_status = "") :
    (¬ (data_collector_agent dist apiKey net init).error_message = "" →
      run_workflow dist apiKey net init =
        (data_collector_agent dist apiKey net init, .end_with_error) ∧
      (run_workflow dist apiKey net init).1.api_creation_status = "") ∧
    ((data_collector_agent dist apiKey net init).error_message = "" →
      (data_collector_agent dist apiKey net init).happy_hour_deals = [] →
      run_workflow dist apiKey net init =
        (data_collector_agent dist apiKey net init, .end_no_deals) ∧
      (run_workflow dist apiKey net init).1.api_creation_status = "" ∧
      (run_workflow dist apiKey net init).1.error_message = "") ∧
    ((data_collector_agent dist apiKey net init).error_message = "" →
      ¬ (data_collector_agent dist apiKey net init).happy_hour_deals = [] →
      run_workflow dist apiKey net init =
        (whistle_api_creator_agent (data_collector_agent dist apiKey net init),
          .continue_to_whistle_api)) := by
  have hst : (data_collector_agent dist apiKey net init).api_creation_status = "" := by
    rw [(collector_state_frame dist apiKey net init).2.2.2]; exact h0
  refine ⟨?_, ?_, ?_⟩
  · intro he
    have hd : decide_next_step (data_collector_agent dist apiKey net init) = .end_with_error := by
      unfold decide_next_step
      rw [if_pos he]
    have hr : run_workflow dist apiKey net init =
        (data_collector_agent dist apiKey net init, .end_with_error) := by
      unfold run_workflow
      simp only [hd]
    exact ⟨hr, by rw [hr]; exact hst⟩
  · intro he hemp
    have hd : decide_next_step (data_collector_agent dist apiKey net init) = .end_no_deals := by
      unfold decide_next_step
      rw [if_neg (by simp [he]), if_pos (by simp [hemp])]
    have hr : run_workflow dist apiKey net init =
        (data_collector_agent dist apiKey net init, .end_no_deals) := by
      unfold run_workflow
      simp only [hd]
    exact ⟨hr, by rw [hr]; exact hst, by rw [hr]; exact he⟩
  · intro he hne
    have hd : decide_next_step (data_collector_agent dist apiKey net init) =
        .continue_to_whistle_api := by
      unfold decide_next_step
      rw [if_neg (by simp [he]), if_neg (by simp [hne])]
    unfold run_workflow
    simp only [hd]

/-- Witness for C3 at a concrete input (missing key forces the error branch). -/
theorem C3_workflow_decision_witness :
    run_workflow zeroDist "" emptyNet (initial_state 1 2 "X") =
      (data_collector_agent zeroDist "" emptyNet (initial_state 1 2 "X"), .end_with_error) ∧
    (run_workflow zeroDist "" emptyNet (initial_state 1 2 "X")).1.api_creation_status = "" :=
  (C3_workflow_decision zeroDist "" emptyNet (initial_state 1 2 "X") rfl).1
    (by decide)

end HappyHours

namespace HappyHours

/-! ## C9: missing API credential -/

/-- C9: with an unset or placeholder key, the fetch returns the configuration
error for every network oracle and every argument (so before any network
call), and a run from the initial state ends in the error terminal state
carrying the configuration-error message with an empty deal list. -/
theorem C9_missing_credential (dist : Dist) (apiKey : String) (net : Net)
    (lat lng : ℚ) (nm : String)
    (hbad : apiKey = "" ∨ apiKey = GOOGLE_PLACES_API_KEY_placeholder) :
    (∀ (net2 : Net) (lat2 lng2 radius2 : ℚ),
      fetch_happy_hour_data_live dist apiKey net2 lat2 lng2 radius2 =
        .error apiKeyMissingMessage) ∧
    (run_workflow dist apiKey net (initial_state lat lng nm)).2 = .end_with_error ∧
    (run_workflow dist apiKey net (initial_state lat lng nm)).1.error_message =
      "Error in Data Collector: " ++ apiKeyMissingMessage ∧
    (run_workflow dist apiKey net (initial_state lat lng nm)).1.happy_hour_deals = [] := by
  have hfetch : ∀ (net2 : Net) (lat2 lng2 radius2 : ℚ),
      fetch_happy_hour_data_live dist apiKey net2 lat2 lng2 radius2 =
        .error apiKeyMissingMessage := by
    intro net2 lat2 lng2 r2
    unfold fetch_happy_hour_data_live
    rw [if_pos hbad]
  have hcol : data_collector_agent dist apiKey net (initial_state lat lng nm) =
      { lat := some lat, lng := some lng, happy_hour_deals := [],
        api_creation_status := "",
        error_message := "Error in Data Collector: " ++ apiKeyMissingMessage,
        location_name := nm } := by
    unfold data_collector_agent initial_state
    simp [hfetch]
  have hmsg : ¬ ("Error in Data Collector: " ++ apiKeyMissingMessage) = "" := by decide
  have hd : decide_next_step (data_collector_agent dist apiKey net (initial_state lat lng nm)) =
      .end_with_error := by
    rw [hcol]
    unfold decide_next_step
    exact if_pos hmsg
  have hrun : run_workflow dist apiKey net (initial_state lat lng nm) =
      (data_collector_agent dist apiKey net (initial_state lat lng nm), .end_with_error) := by
    unfold run_workflow
    simp only [hd]
  refine ⟨hfetch, ?_, ?_, ?_⟩
  · rw [hrun]
  · rw [hrun, hcol]
  · rw [hrun, hcol]

/-- Witness for C9 with the empty key. -/
theorem C9_missing_credential_witness :
    (∀ (net2 : Net) (lat2 lng2 radius2 : ℚ),
      fetch_happy_hour_data_live zeroDist "" net2 lat2 lng2 radius2 =
        .error apiKeyMissingMessage) ∧
    (run_workflow zeroDist "" emptyNet (initial_state 1 2 "X")).2 = .end_with_error ∧
    (run_workflow zeroDist "" emptyNet (initial_state 1 2 "X")).1.error_message =
      "Error in Data Collector: " ++ apiKeyMissingMessage ∧
    (run_workflow zeroDist "" emptyNet (initial_state 1 2 "X")).1.happy_hour_deals = [] :=
  C9_missing_credential zeroDist "" emptyNet 1 2 "X" (Or.inl rfl)

end HappyHours

namespace HappyHours

/-! ## C7: priority-ordered category classification -/

/-- A concrete lodging-only venue with a mention-free review. -/
def lodgingPlace : Place := { types := ["lodging"], reviews := ["Nice rooms"] }

/-- C7: the classification is by category membership with first-match-wins
priority (hotel-and-bar 2.5h, then hotel 2h, then bar/pub/night_club 3h,
then restaurant 2h, then the 2h default), and a lodging-only candidate
without review mentions yields a Deal whose offer details contain the
hotel-lobby phrase and whose validity hours equal 2. -/
theorem C7_priority_classification (types : List String) (nm : String)
    (place detailed : Place) (pid : String) (loc : Coord) :
    (("lodging" ∈ types ∨ "hotel" ∈ types →
        (("bar" ∈ types ∨ "restaurant" ∈ types) →
          offer_for_types types nm =
            ("Hotel Bar/Restaurant Happy Hour: Discounted cocktails, wine, beer, and perhaps small plates.", 2.5)) ∧
        (¬ ("bar" ∈ types ∨ "restaurant" ∈ types) →
          offer_for_types types nm =
            ("Hotel Lobby Bar Happy Hour: Special deals on drinks and appetizers for guests and visitors.", 2))) ∧
      (¬ ("lodging" ∈ types ∨ "hotel" ∈ types) →
        ((("bar" ∈ types ∨ "pub" ∈ types) ∨ "night_club" ∈ types) →
          offer_for_types types nm = ("Happy Hour: Discounted drinks and possibly appetizers.", 3)) ∧
        (¬ (("bar" ∈ types ∨ "pub" ∈ types) ∨ "night_club" ∈ types) →
          ("restaurant" ∈ types →
            offer_for_types types nm = ("Happy Hour: Special deals on drinks and appetizers.", 2)) ∧
          (¬ "restaurant" ∈ types →
            offer_for_types types nm = ("Potential happy hour at " ++ nm ++ ".", 2))))) ∧
    (detailed.types = ["lodging"] →
      has_happy_hour_mention detailed.reviews = false →
      strContains (formatDeal (makePlaceRecord place pid loc detailed)).offer_details
          "Hotel Lobby Bar Happy Hour" = true ∧
      (formatDeal (makePlaceRecord place pid loc detailed)).offer_validity_hours = 2) := by
  refine ⟨⟨?_, ?_⟩, ?_⟩
  · intro h1
    exact ⟨fun h2 => by simp [offer_for_types, h1, h2],
           fun h2 => by simp [offer_for_types, h1, h2]⟩
  · intro h1
    refine ⟨fun h2 => by simp [offer_for_types, h1, h2], fun h2 => ?_⟩
    exact ⟨fun h3 => by simp [offer_for_types, h1, h2, h3],
           fun h3 => by simp [offer_for_types, h1, h2, h3]⟩
  · intro hty hnom
    have hbase : ∀ anm : String, offer_for_types ["lodging"] anm =
        ("Hotel Lobby Bar Happy Hour: Special deals on drinks and appetizers for guests and visitors.", 2) :=
      fun _ => rfl
    constructor
    · simp only [formatDeal, makePlaceRecord, hty, hnom, hbase, Bool.false_eq_true, if_false]
      decide
    · simp only [formatDeal, makePlaceRecord, hty, hnom, hbase, Bool.false_eq_true, if_false]
      norm_num

/-- Witness for C7: a lodging-and-bar venue takes the first rule, and the
concrete lodging-only venue satisfies the round-trip scenario. -/
theorem C7_priority_classification_witness :
    offer_for_types ["lodging", "bar"] "H" =
      ("Hotel Bar/Restaurant Happy Hour: Discounted cocktails, wine, beer, and perhaps small plates.", 2.5) ∧
    (strContains (formatDeal (makePlaceRecord {} "p" ⟨0, 0⟩ lodgingPlace)).offer_details
        "Hotel Lobby Bar Happy Hour" = true ∧
      (formatDeal (makePlaceRecord {} "p" ⟨0, 0⟩ lodgingPlace)).offer_validity_hours = 2) :=
  ⟨((C7_priority_classification ["lodging", "bar"] "H" {} {} "p" ⟨0, 0⟩).1.1
      (by decide)).1 (by decide),
   (C7_priority_classification ["lodging", "bar"] "H" {} lodgingPlace "p" ⟨0, 0⟩).2
      rfl (by decide)⟩

end HappyHours

namespace HappyHours

/-! ## C8: review-mention heuristic and enrichment -/

/-- C8: the mention scan looks only at the first 5 review snippets (the
result is unchanged by truncation to 5) and a match within the first 5
reviews decides the flag no matter what follows; matching is
case-insensitive (an upper-case review matches); when the flag is set the
offer description is rewritten to the confirmed-by-reviews phrasing and the
duration becomes max(previous, 2), hence at least 2 and never below the
category value; and every enriched record has strictly positive duration. -/
theorem C8_mention_heuristic :
    (∀ reviews : List String,
      has_happy_hour_mention reviews = has_happy_hour_mention (reviews.take 5)) ∧
    (∀ (pre : List String) (m : String) (rest : List String),
      pre.length < 5 → reviewMatches m = true →
      has_happy_hour_mention (pre ++ m :: rest) = true) ∧
    reviewMatches "HAPPY Hour tonight!" = true ∧
    (∀ (place detailed : Place) (pid : String) (loc : Coord),
      has_happy_hour_mention detailed.reviews = true →
      (makePlaceRecord place pid loc detailed).details =
        confirmOffer (offer_for_types detailed.types (detailed.name.getD "Unknown Place")).1 ∧
      (makePlaceRecord place pid loc detailed).validity_hours =
        max (offer_for_types detailed.types (detailed.name.getD "Unknown Place")).2 2 ∧
      2 ≤ (makePlaceRecord place pid loc detailed).validity_hours ∧
      (offer_for_types detailed.types (detailed.name.getD "Unknown Place")).2 ≤
        (makePlaceRecord place pid loc detailed).validity_hours) ∧
    (∀ (place detailed : Place) (pid : String) (loc : Coord),
      0 < (makePlaceRecord place pid loc detailed).validity_hours) := by
  refine ⟨?_, ?_, by decide, ?_, ?_⟩
  · intro reviews
    unfold has_happy_hour_mention
    rw [List.take_take, Nat.min_self]
  · intro pre m rest hlen hm
    unfold has_happy_hour_mention
    rw [List.any_eq_true]
    refine ⟨m, ?_, hm⟩
    rw [List.take_append_eq_append_take, List.take_of_length_le (by omega)]
    refine List.mem_append_right _ ?_
    obtain ⟨k, hk⟩ : ∃ k, 5 - pre.length = k + 1 := ⟨4 - pre.length, by omega⟩
    rw [hk, List.take_succ_cons]
    exact List.mem_cons_self m _
  · intro place detailed pid loc hmention
    have hd : (makePlaceRecord place pid loc detailed).details =
        confirmOffer (offer_for_types detailed.types (detailed.name.getD "Unknown Place")).1 := by
      simp only [makePlaceRecord, hmention, if_true]
    have hv : (makePlaceRecord place pid loc detailed).validity_hours =
        max (offer_for_types detailed.types (detailed.name.getD "Unknown Place")).2 2 := by
      simp only [makePlaceRecord, hmention, if_true]
    refine ⟨hd, hv, ?_, ?_⟩
    · rw [hv]; exact le_max_right _ _
    · rw [hv]; exact le_max_left _ _
  · intro place detailed pid loc
    unfold makePlaceRecord
    by_cases hm : has_happy_hour_mention detailed.reviews = true
    · simp only [hm, if_true]
      calc (0:ℚ) < 2 := by norm_num
        _ ≤ max (offer_for_types detailed.types (detailed.name.getD "Unknown Place")).2 2 :=
          le_max_right _ _
    · simp only [Bool.not_eq_true] at hm
      simp only [hm, Bool.false_eq_true, if_false]
      exact offer_for_types_hours_pos _ _

/-- Witness for C8 at concrete reviews containing a keyword. -/
theorem C8_mention_heuristic_witness :
    has_happy_hour_mention ([] ++ "half price drinks" :: ["later review"]) = true ∧
    ((makePlaceRecord {} "p" ⟨0, 0⟩ { reviews := ["half price drinks"] }).details =
        confirmOffer (offer_for_types ([] : List String) "Unknown Place").1 ∧
      (makePlaceRecord {} "p" ⟨0, 0⟩ { reviews := ["half price drinks"] }).validity_hours =
        max (offer_for_types ([] : List String) "Unknown Place").2 2 ∧
      2 ≤ (makePlaceRecord {} "p" ⟨0, 0⟩ { reviews := ["half price drinks"] }).validity_hours ∧
      (offer_for_types ([] : List String) "Unknown Place").2 ≤
        (makePlaceRecord {} "p" ⟨0, 0⟩ { reviews := ["half price drinks"] }).validity_hours) :=
  ⟨C8_mention_heuristic.2.1 [] "half price drinks" ["later review"] (by decide) (by decide),
   C8_mention_heuristic.2.2.2.1 {} { reviews := ["half price drinks"] } "p" ⟨0, 0⟩ (by decide)⟩

end HappyHours

namespace HappyHours

/-! ## C1: the provider flag versus hasExplicitMention -/

/-- The bar candidate of the C1 scenario: category bar, one review
containing the phrase happy hour special. -/
def barPlace : Place :=
  { place_id := some "p1", geometry := some ⟨40.7128, -74.0060⟩,
    name := some "Joe Bar", types := ["bar"],
    reviews := ["Great happy hour special!"] }

/-- The C1 scenario network: one discovered candidate, all other queries
return no results. -/
def netC1 : Net := fun q =>
  if q = "hotel happy hour" then .resp "OK" [(barPlace, .resp "OK" (some barPlace))]
  else .resp "ZERO_RESULTS" []

/-- The record the C1 scenario accumulates (distance of the zero model). -/
def rawC1 : RawDeal :=
  { makePlaceRecord barPlace "p1" ⟨40.7128, -74.0060⟩ barPlace with distance_km := some 0 }

/-- C1 fails as stated: the dict built by the collector has no field tied to
hasExplicitMention; its only boolean field (provider) is the constant True,
so for a venue whose reviews carry no mention the claimed equality with the
flag is false. -/
theorem C1_counterexample :
    ¬ ((formatDeal (makePlaceRecord {} "p" ⟨0, 0⟩ {})).provider =
        has_happy_hour_mention (({} : Place)).reviews) := by decide

/-- C1 (amended): every Deal produced by the collector carries the boolean
field provider equal to the constant true, independent of the venue's
hasExplicitMention flag; in particular the scenario with origin
(40.7128, -74.0060) and one bar candidate whose review contains the phrase
happy hour special yields exactly that deal, with the flag true. -/
theorem C1_provider_constant_true (deal : RawDeal) :
    (formatDeal deal).provider = true ∧
    (run_workflow zeroDist "KEY" netC1 (initial_state 40.7128 (-74.0060) "NYC")).1.happy_hour_deals =
      [formatDeal rawC1] ∧
    ∀ d ∈ (run_workflow zeroDist "KEY" netC1
        (initial_state 40.7128 (-74.0060) "NYC")).1.happy_hour_deals,
      d.provider = true := by
  have hcol : data_collector_agent zeroDist "KEY" netC1 (initial_state 40.7128 (-74.0060) "NYC") =
      { lat := some 40.7128, lng := some (-74.0060),
        happy_hour_deals := [formatDeal rawC1].mergeSort (dealLE zeroDist 40.7128 (-74.0060)),
        api_creation_status := "", error_message := "", location_name := "NYC" } := rfl
  have hms : [formatDeal rawC1].mergeSort (dealLE zeroDist 40.7128 (-74.0060)) =
      [formatDeal rawC1] := List.mergeSort_singleton _
  have hcol2 : data_collector_agent zeroDist "KEY" netC1 (initial_state 40.7128 (-74.0060) "NYC") =
      { lat := some 40.7128, lng := some (-74.0060),
        happy_hour_deals := [formatDeal rawC1],
        api_creation_status := "", error_message := "", location_name := "NYC" } := by
    rw [hcol, hms]
  have hd : decide_next_step (data_collector_agent zeroDist "KEY" netC1
      (initial_state 40.7128 (-74.0060) "NYC")) = .continue_to_whistle_api := by
    rw [hcol2]; rfl
  have hrun : run_workflow zeroDist "KEY" netC1 (initial_state 40.7128 (-74.0060) "NYC") =
      (whistle_api_creator_agent (data_collector_agent zeroDist "KEY" netC1
        (initial_state 40.7128 (-74.0060) "NYC")), .continue_to_whistle_api) := by
    unfold run_workflow
    simp only [hd]
  have hdeals : (run_workflow zeroDist "KEY" netC1
      (initial_state 40.7128 (-74.0060) "NYC")).1.happy_hour_deals = [formatDeal rawC1] := by
    rw [hrun]
    show (whistle_api_creator_agent _).happy_hour_deals = _
    rw [(whistle_state_frame _).2.2.2.1, hcol2]
  refine ⟨rfl, hdeals, ?_⟩
  intro d hdmem
  rw [hdeals] at hdmem
  simp only [List.mem_singleton] at hdmem
  subst hdmem
  rfl

end HappyHours

namespace HappyHours

/-! ## C2: behaviour when the detail fetch fails -/

/-- First result of the C2 query: its detail fetch raises. -/
def detailFailPlaceA : Place :=
  { place_id := some "pA", geometry := some ⟨0, 0⟩, name := some "A", types := ["bar"] }

/-- Second result of the same C2 query, with a healthy detail fetch. -/
def detailFailPlaceB : Place :=
  { place_id := some "pB", geometry := some ⟨0, 0⟩, name := some "B", types := ["bar"] }

/-- The C2 network: one query whose first result's detail call raises. -/
def netC2 : Net := fun q =>
  if q = "hotel happy hour" then
    .resp "OK" [(detailFailPlaceA, .netFail), (detailFailPlaceB, .resp "OK" (some detailFailPlaceB))]
  else .resp "ZERO_RESULTS" []

/-- C2 fails as stated: when the per-venue detail HTTP call raises, the
exception is caught per query, so that venue is not emitted from the basic
fields and the remaining result of the same query is dropped as well: the
discovery output is empty. -/
theorem C2_counterexample :
    ¬ (∃ raws, fetch_happy_hour_data_live zeroDist "KEY" netC2 0 0 5 = Except.ok raws ∧
        (∃ rdl ∈ raws, rdl.place_id = "pA") ∧ (∃ rdl ∈ raws, rdl.place_id = "pB")) := by
  rintro ⟨raws, hr, ⟨rdl, hmem, -⟩, -⟩
  have h0 : fetch_happy_hour_data_live zeroDist "KEY" netC2 0 0 5 = Except.ok [] := rfl
  rw [h0] at hr
  injection hr with h
  subst h
  simp at hmem

/-- C2 (amended): for a query result with an unseen identifier and geometry,
any detail response that arrives at HTTP level still yields a candidate: on
status OK the record is built from the (possibly missing or incomplete)
result dict, with the merge falling back to basic search fields per field
(the address falls back to the basic record's vicinity; the coordinates
always come from the basic record's geometry); on a non-OK status the whole
basic place record is used.  A detail HTTP failure instead drops that venue
and aborts the rest of that query's result list, keeping what was
accumulated, while subsequent queries are still processed (the fold steps
through every query). -/
theorem C2_detail_fallback_and_abort
    (place : Place) (pid : String) (loc : Coord) (det_status : String)
    (result : Option Place) (rest : List (Place × DetailOutcome))
    (seen : List String) (acc : List RawDeal) (detailed : Place)
    (hpid : place.place_id = some pid) (hne : ¬ (pid = "" ∨ pid ∈ seen))
    (hgeo : place.geometry = some loc) :
    process_results ((place, .resp "OK" result) :: rest) (seen, acc) =
      process_results rest
        (pid :: seen, acc ++ [makePlaceRecord place pid loc (result.getD {})]) ∧
    (¬ det_status = "OK" →
      process_results ((place, .resp det_status result) :: rest) (seen, acc) =
        process_results rest (pid :: seen, acc ++ [makePlaceRecord place pid loc place])) ∧
    (detailed.formatted_address = none →
      (makePlaceRecord place pid loc detailed).formatted_address =
        place.vicinity.getD "Address not available") ∧
    (makePlaceRecord place pid loc detailed).lat = loc.lat ∧
    (makePlaceRecord place pid loc detailed).lng = loc.lng ∧
    process_results ((place, .netFail) :: rest) (seen, acc) = (seen, acc) ∧
    ∀ (st : DiscoveryState) (q : String) (qs : List String) (net : Net),
      (q :: qs).foldl (fun s qq => process_query s (net qq)) st =
        qs.foldl (fun s qq => process_query s (net qq)) (process_query st (net q)) := by
  refine ⟨?_, ?_, ?_, rfl, rfl, ?_, fun st q qs net => rfl⟩
  · simp only [process_results, hpid, hgeo]
    rw [if_neg hne]
    simp
  · intro hst
    simp only [process_results, hpid, hgeo]
    rw [if_neg hne, if_neg hst]
  · intro hmiss
    simp only [makePlaceRecord, hmiss, Option.getD_none]
  · simp only [process_results, hpid, hgeo]
    rw [if_neg hne]

/-- Witness for C2 (amended) at a concrete place, status and detail dict. -/
theorem C2_detail_fallback_and_abort_witness :
    (process_results [(detailFailPlaceA, .resp "OK" none)] ([], []) =
      process_results []
        (["pA"], [] ++ [makePlaceRecord detailFailPlaceA "pA" ⟨0, 0⟩ ((none : Option Place).getD {})]) ∧
    (¬ "INVALID_REQUEST" = "OK" →
      process_results [(detailFailPlaceA, .resp "INVALID_REQUEST" none)] ([], []) =
        process_results []
          (["pA"], [] ++ [makePlaceRecord detailFailPlaceA "pA" ⟨0, 0⟩ detailFailPlaceA])) ∧
    ((({} : Place)).formatted_address = none →
      (makePlaceRecord detailFailPlaceA "pA" ⟨0, 0⟩ {}).formatted_address =
        detailFailPlaceA.vicinity.getD "Address not available") ∧
    (makePlaceRecord detailFailPlaceA "pA" ⟨0, 0⟩ {}).lat = (⟨0, 0⟩ : Coord).lat ∧
    (makePlaceRecord detailFailPlaceA "pA" ⟨0, 0⟩ {}).lng = (⟨0, 0⟩ : Coord).lng ∧
    process_results [(detailFailPlaceA, .netFail)] ([], []) = ([], []) ∧
    ∀ (st : DiscoveryState) (q : String) (qs : List String) (net : Net),
      (q :: qs).foldl (fun s qq => process_query s (net qq)) st =
        qs.foldl (fun s qq => process_query s (net qq)) (process_query st (net q))) :=
  C2_detail_fallback_and_abort detailFailPlaceA "pA" ⟨0, 0⟩ "INVALID_REQUEST" none [] [] []
    {} rfl (by decide) rfl

end HappyHours

namespace HappyHours

/-! ## C4: deduplication invariant -/

/-- Discovery invariant: accumulated ids are distinct and all registered as seen. -/
def DiscInv (st : DiscoveryState) : Prop :=
  (st.2.map RawDeal.place_id).Nodup ∧ ∀ rdl ∈ st.2, rdl.place_id ∈ st.1

/-- Processing one query's results preserves the discovery invariant. -/
theorem process_results_inv (rs : List (Place × DetailOutcome)) (st : DiscoveryState)
    (h : DiscInv st) : DiscInv (process_results rs st) := by
  induction rs generalizing st with
  | nil =>
    obtain ⟨seen, acc⟩ := st
    simpa [process_results] using h
  | cons pd rest ih =>
    obtain ⟨place, det⟩ := pd
    obtain ⟨seen, acc⟩ := st
    simp only [process_results]
    cases hpid : place.place_id with
    | none => exact ih _ h
    | some pid =>
      dsimp only
      by_cases hc : pid = "" ∨ pid ∈ seen
      · rw [if_pos hc]; exact ih _ h
      · rw [if_neg hc]
        cases hgeo : place.geometry with
        | none => exact ih _ h
        | some loc =>
          cases det with
          | netFail => exact h
          | resp status result =>
            apply ih
            push_neg at hc
            constructor
            · rw [List.map_append, List.nodup_append]
              refine ⟨h.1, List.nodup_singleton _, ?_⟩
              intro x hx hx2
              simp only [List.map_cons, List.map_nil, List.mem_singleton] at hx2
              subst hx2
              obtain ⟨rdl, hrdl, hid⟩ := List.mem_map.mp hx
              have : x ∈ seen := hid ▸ h.2 rdl hrdl
              exact hc.2 this
            · intro rdl hrdl
              rcases List.mem_append.mp hrdl with hin | hone
              · exact List.mem_cons_of_mem _ (h.2 rdl hin)
              · simp only [List.mem_singleton] at hone
                subst hone
                exact List.mem_cons_self _ _

/-- Processing one query response preserves the discovery invariant. -/
theorem process_query_inv (st : DiscoveryState) (resp : QueryResponse)
    (h : DiscInv st) : DiscInv (process_query st resp) := by
  cases resp with
  | netFail => exact h
  | resp status results =>
    simp only [process_query]
    split
    · exact process_results_inv _ _ h
    · exact h

/-- Folding the whole query list preserves the discovery invariant. -/
theorem foldl_queries_inv (qs : List String) (net : Net) (st : DiscoveryState)
    (h : DiscInv st) :
    DiscInv (qs.foldl (fun s q => process_query s (net q)) st) := by
  induction qs generalizing st with
  | nil => exact h
  | cons q rest ih => exact ih _ (process_query_inv st (net q) h)

/-- The distance filter only removes records and never changes an id. -/
theorem distance_filter_ids_sublist (dist : Dist) (lat lng radius : ℚ)
    (l : List RawDeal) :
    ((l.filterMap (fun place =>
        if dist lat lng place.lat place.lng ≤ radius
        then some { place with distance_km := some (dist lat lng place.lat place.lng) }
        else none)).map RawDeal.place_id).Sublist (l.map RawDeal.place_id) := by
  induction l with
  | nil => simp
  | cons a l ih =>
    simp only [List.filterMap_cons]
    cases hfa : (if dist lat lng a.lat a.lng ≤ radius
        then some { a with distance_km := some (dist lat lng a.lat a.lng) } else none) with
    | none =>
      dsimp only
      rw [List.map_cons]
      exact ih.cons _
    | some b =>
      have hb : b.place_id = a.place_id := by
        by_cases hle : dist lat lng a.lat a.lng ≤ radius
        · rw [if_pos hle] at hfa
          injection hfa with hba
          subst hba
          rfl
        · rw [if_neg hle] at hfa
          cases hfa
      dsimp only
      rw [List.map_cons, List.map_cons, hb]
      exact ih.cons₂ _

end HappyHours

namespace HappyHours

/-- The C4 scenario place, returned by two different keyword queries. -/
def dupPlace : Place :=
  { place_id := some "dup", geometry := some ⟨0, 0⟩, name := some "D", types := ["bar"] }

/-- The C4 network: two keyword queries return the same place identifier. -/
def netC4 : Net := fun q =>
  if q = "hotel happy hour" ∨ q = "bar" then .resp "OK" [(dupPlace, .resp "OK" (some dupPlace))]
  else .resp "ZERO_RESULTS" []

/-- The single record the C4 scenario accumulates. -/
def rawC4 : RawDeal :=
  { makePlaceRecord dupPlace "dup" ⟨0, 0⟩ dupPlace with distance_km := some 0 }

/-- C4: for every discovery run the emitted candidate list never contains
two records with the same place identifier; the assembled deal list has
exactly one Deal per emitted candidate; and in the concrete scenario where
two keyword queries return the same place identifier the assembled output
contains exactly one Deal for that venue. -/
theorem C4_dedup (dist : Dist) (apiKey : String) (net : Net) (lat lng : ℚ) (nm : String) :
    (∀ (radius : ℚ) (raws : List RawDeal),
      fetch_happy_hour_data_live dist apiKey net lat lng radius = .ok raws →
      (raws.map RawDeal.place_id).Nodup) ∧
    (∀ raws : List RawDeal,
      fetch_happy_hour_data_live dist apiKey net lat lng 5 = .ok raws →
      (data_collector_agent dist apiKey net (initial_state lat lng nm)).happy_hour_deals.length
        = raws.length) ∧
    fetch_happy_hour_data_live zeroDist "KEY" netC4 0 0 5 = .ok [rawC4] ∧
    (data_collector_agent zeroDist "KEY" netC4 (initial_state 0 0 "X")).happy_hour_deals.length
      = 1 := by
  refine ⟨?_, ?_, rfl, ?_⟩
  · intro radius raws hok
    unfold fetch_happy_hour_data_live at hok
    by_cases hbad : apiKey = "" ∨ apiKey = GOOGLE_PLACES_API_KEY_placeholder
    · rw [if_pos hbad] at hok
      cases hok
    · rw [if_neg hbad] at hok
      simp only [] at hok
      injection hok with h
      subst h
      have hinv : DiscInv (search_queries.foldl (fun s q => process_query s (net q)) ([], [])) :=
        foldl_queries_inv search_queries net ([], [])
          ⟨List.nodup_nil, by intro rdl hmem; cases hmem⟩
      exact List.Nodup.sublist (distance_filter_ids_sublist dist lat lng radius _) hinv.1
  · intro raws hok
    have hdeals : (data_collector_agent dist apiKey net (initial_state lat lng nm)).happy_hour_deals =
        (raws.map formatDeal).mergeSort (dealLE dist lat lng) := by
      unfold data_collector_agent initial_state
      simp only [hok]
    rw [hdeals]
    simp
  · have hcol : data_collector_agent zeroDist "KEY" netC4 (initial_state 0 0 "X") =
        { lat := some 0, lng := some 0,
          happy_hour_deals := [formatDeal rawC4].mergeSort (dealLE zeroDist 0 0),
          api_creation_status := "", error_message := "", location_name := "X" } := rfl
    rw [hcol]
    simp

/-- Witness for C4 on the duplicate-identifier scenario network. -/
theorem C4_dedup_witness :
    fetch_happy_hour_data_live zeroDist "KEY" netC4 0 0 5 = .ok [rawC4] ∧
    ([rawC4].map RawDeal.place_id).Nodup :=
  ⟨rfl, (C4_dedup zeroDist "KEY" netC4 0 0 "X").1 5 [rawC4] rfl⟩

end HappyHours

namespace HappyHours

/-! ## C6: sorting of the assembled deal list -/

/-- The sort comparison is transitive. -/
theorem dealLE_trans (dist : Dist) (lat lng : ℚ) :
    ∀ x y z : Deal, dealLE dist lat lng x y → dealLE dist lat lng y z →
      dealLE dist lat lng x z := by
  intro x y z hxy hyz
  simp only [dealLE, decide_eq_true_eq] at hxy hyz ⊢
  exact le_trans hxy hyz

/-- The sort comparison is total. -/
theorem dealLE_total (dist : Dist) (lat lng : ℚ) :
    ∀ x y : Deal, dealLE dist lat lng x y || dealLE dist lat lng y x := by
  intro x y
  simp only [dealLE, Bool.or_eq_true, decide_eq_true_eq]
  exact le_total _ _

/-- C6: for every fetch outcome, the deal list written by the collector is
sorted ascending by the geodesic distance of each deal's location from the
origin, is a permutation of the formatted input (no deal is lost), and the
sort is stable: two deals at equal distance appear in the output in their
encounter order (any such ordered pair of the input remains a sublist). -/
theorem C6_sorted_and_stable (dist : Dist) (apiKey : String) (net : Net)
    (lat lng : ℚ) (nm : String) (raws : List RawDeal)
    (hok : fetch_happy_hour_data_live dist apiKey net lat lng 5 = .ok raws) :
    ((data_collector_agent dist apiKey net (initial_state lat lng nm)).happy_hour_deals).Pairwise
      (fun a b => dist lat lng a.store_lat a.store_lng ≤ dist lat lng b.store_lat b.store_lng) ∧
    ((data_collector_agent dist apiKey net (initial_state lat lng nm)).happy_hour_deals).Perm
      (raws.map formatDeal) ∧
    ∀ a b : Deal,
      dist lat lng a.store_lat a.store_lng = dist lat lng b.store_lat b.store_lng →
      List.Sublist [a, b] (raws.map formatDeal) →
      List.Sublist [a, b]
        ((data_collector_agent dist apiKey net (initial_state lat lng nm)).happy_hour_deals) := by
  have hdeals : (data_collector_agent dist apiKey net (initial_state lat lng nm)).happy_hour_deals =
      (raws.map formatDeal).mergeSort (dealLE dist lat lng) := by
    unfold data_collector_agent initial_state
    simp only [hok]
  refine ⟨?_, ?_, ?_⟩
  · rw [hdeals]
    have hs := List.sorted_mergeSort (dealLE_trans dist lat lng) (dealLE_total dist lat lng)
      (raws.map formatDeal)
    refine hs.imp ?_
    intro a b h
    simpa [dealLE] using h
  · rw [hdeals]
    exact List.mergeSort_perm _ _
  · intro a b heq hsub
    rw [hdeals]
    refine List.sublist_mergeSort (dealLE_trans dist lat lng) (dealLE_total dist lat lng) ?_ hsub
    simp [List.pairwise_cons, dealLE, heq]

/-- First venue of the C6 witness scenario. -/
def stablePlaceA : Place :=
  { place_id := some "a6", geometry := some ⟨0, 0⟩, name := some "A6", types := ["bar"] }

/-- Second venue of the C6 witness scenario, tied in distance under the
zero distance model. -/
def stablePlaceB : Place :=
  { place_id := some "b6", geometry := some ⟨1, 1⟩, name := some "B6", types := ["bar"] }

/-- The C6 witness network: one query returns two venues. -/
def netC6 : Net := fun q =>
  if q = "bar" then
    .resp "OK" [(stablePlaceA, .resp "OK" (some stablePlaceA)),
                (stablePlaceB, .resp "OK" (some stablePlaceB))]
  else .resp "ZERO_RESULTS" []

/-- Record accumulated for the first C6 venue. -/
def rawA6 : RawDeal :=
  { makePlaceRecord stablePlaceA "a6" ⟨0, 0⟩ stablePlaceA with distance_km := some 0 }

/-- Record accumulated for the second C6 venue. -/
def rawB6 : RawDeal :=
  { makePlaceRecord stablePlaceB "b6" ⟨1, 1⟩ stablePlaceB with distance_km := some 0 }

/-- Witness for C6 on a concrete two-venue run with tied distances. -/
theorem C6_sorted_and_stable_witness :
    fetch_happy_hour_data_live zeroDist "KEY" netC6 0 0 5 = .ok [rawA6, rawB6] ∧
    (((data_collector_agent zeroDist "KEY" netC6 (initial_state 0 0 "X")).happy_hour_deals).Pairwise
      (fun a b => zeroDist 0 0 a.store_lat a.store_lng ≤ zeroDist 0 0 b.store_lat b.store_lng) ∧
    ((data_collector_agent zeroDist "KEY" netC6 (initial_state 0 0 "X")).happy_hour_deals).Perm
      ([rawA6, rawB6].map formatDeal) ∧
    ∀ a b : Deal,
      zeroDist 0 0 a.store_lat a.store_lng = zeroDist 0 0 b.store_lat b.store_lng →
      List.Sublist [a, b] ([rawA6, rawB6].map formatDeal) →
      List.Sublist [a, b]
        ((data_collector_agent zeroDist "KEY" netC6 (initial_state 0 0 "X")).happy_hour_deals)) :=
  ⟨rfl, C6_sorted_and_stable zeroDist "KEY" netC6 0 0 "X" [rawA6, rawB6] rfl⟩

end HappyHours
